import Mathlib

/-!
# Verification of the reddit-monitor event-deduplication and escalating-notification core

Shallow embedding of `src/reddit_monitor/` (state_manager.py, notifier.py,
webhook.py, monitor.py) and proofs about the spec's claims.

Modelling conventions:
* The SQLite tables `seen_posts` and `pending_notifications` are lists of
  records inside a `StoreState`; each Store method is a pure function on
  `StoreState` (plus the wall-clock instant `now : Int`, since the code calls
  `datetime.now()` inside each method).
* ISO-8601 timestamp strings of one fixed format compare lexicographically
  exactly as the instants they denote, so timestamps are embedded as `Int`
  (minutes) and the SQL `<` on the strings as `<` on `Int`.
* Network sends (ntfy POST, Twilio voice call, Twilio SMS) are external
  collaborators: their success/failure is an input `Bool` of the embedding,
  never computed.
* `uuid.uuid4()` is an external generator: the generated id is an input
  `String`, with freshness a hypothesis where a theorem needs it.
* A Python function that can raise becomes a function into `Except DbError _`;
  an `except` handler that swallows the exception and returns a default is
  embedded as returning `Except.ok` of that default.
-/

/-- Errors surfaced by the storage layer. `duplicateKey` is sqlite3's
IntegrityError on a PRIMARY KEY violation; `storageError` stands for any other
I/O or constraint failure of a statement. -/
inductive DbError where
  | duplicateKey
  | storageError
deriving DecidableEq, Repr

/-- A row of the `seen_posts` table (state_manager.py, `_init_db`):
post_id TEXT PRIMARY KEY, username, subreddit, title, timestamp. -/
structure SeenEvent where
  post_id : String
  username : String
  subreddit : String
  title : String
  timestamp : Int
deriving DecidableEq, Repr

/-- A row of the `pending_notifications` table (state_manager.py, `_init_db`):
notification_id TEXT PRIMARY KEY, post_id, title, message, link (nullable),
created_at, acknowledged INTEGER DEFAULT 0. -/
structure PendingNotification where
  notification_id : String
  post_id : String
  title : String
  message : String
  link : Option String
  created_at : Int
  acknowledged : Bool
deriving DecidableEq, Repr

/-- The two tables owned by StateManager (the Durable Store). -/
structure StoreState where
  seen_posts : List SeenEvent
  pending_notifications : List PendingNotification
deriving DecidableEq, Repr

/-- Empty database, as created by `_init_db` on a fresh path. -/
def StoreState.empty : StoreState := ⟨[], []⟩

/-- `StateManager.is_post_seen`: `SELECT 1 FROM seen_posts WHERE post_id = ?`,
true iff a row exists. -/
def is_post_seen (s : StoreState) (post_id : String) : Bool :=
  s.seen_posts.any (fun e => e.post_id == post_id)

/-- `StateManager.mark_post_seen`: `INSERT INTO seen_posts ... VALUES (...)`.
The PRIMARY KEY on `post_id` makes SQLite reject a duplicate insert with
IntegrityError; the method's `except` block rolls back and re-raises, so the
caller sees the error and the table is unchanged. -/
def mark_post_seen (s : StoreState) (post_id username subreddit title : String)
    (now : Int) : Except DbError StoreState :=
  if s.seen_posts.any (fun e => e.post_id == post_id) then
    .error .duplicateKey
  else
    .ok { s with seen_posts :=
      s.seen_posts ++ [⟨post_id, username, subreddit, title, now⟩] }

/-- `StateManager.create_pending_notification`: inserts a row with
`acknowledged = 0` and `created_at = now`, returning the generated id.
The generated `uuid.uuid4()` is the input `nid`; the PRIMARY KEY on
`notification_id` rejects a duplicate id (rollback + re-raise). -/
def create_pending_notification (s : StoreState) (nid post_id title message : String)
    (link : Option String) (now : Int) : Except DbError (StoreState × String) :=
  if s.pending_notifications.any (fun p => p.notification_id == nid) then
    .error .duplicateKey
  else
    .ok ({ s with pending_notifications :=
      s.pending_notifications ++ [⟨nid, post_id, title, message, link, now, false⟩] },
      nid)

/-- `StateManager.mark_notification_acknowledged`:
`UPDATE pending_notifications SET acknowledged = 1 WHERE notification_id = ?`,
then returns `cursor.rowcount > 0`. The WHERE clause has no
`AND acknowledged = 0` guard, and SQLite's changes counter counts every row
matched by the WHERE clause even when the assigned value equals the stored one,
so the returned Bool is `true` exactly when a row with this id exists —
acknowledged already or not. -/
def mark_notification_acknowledged (s : StoreState) (nid : String) :
    StoreState × Bool :=
  let matched := s.pending_notifications.countP (fun p => p.notification_id == nid)
  ({ s with pending_notifications :=
      s.pending_notifications.map (fun p =>
        if p.notification_id == nid then { p with acknowledged := true } else p) },
    decide (0 < matched))

/-- The projection built by `get_pending_notifications_needing_followup`
(the five selected columns, packed into a dict per row). -/
structure PendingView where
  notification_id : String
  post_id : String
  title : String
  message : String
  link : Option String
deriving DecidableEq, Repr

/-- The SELECT's per-row projection. -/
def PendingNotification.view (p : PendingNotification) : PendingView :=
  ⟨p.notification_id, p.post_id, p.title, p.message, p.link⟩

/-- `StateManager.get_pending_notifications_needing_followup`:
`SELECT ... WHERE acknowledged = 0 AND created_at < ?` with
`? = now - minutes`. -/
def get_pending_notifications_needing_followup (s : StoreState)
    (now : Int) (minutes : Int) : List PendingView :=
  ((s.pending_notifications.filter (fun p =>
      p.acknowledged == false && decide (p.created_at < now - minutes))).map
    PendingNotification.view)

/-- Python truthiness of an optional request/argument string: `None` and the
empty string are falsy. -/
def falsy : Option String → Bool
  | none => true
  | some v => v.isEmpty

/-- The configuration fields the core reads (config.py / the `config` object
handed to each component). `twilio_client` records whether the Twilio
`Client(...)` constructor in `NotificationService.__init__` succeeded (it is
attempted only when `TWILIO_ENABLED`, and on failure the client stays `None`). -/
structure Config where
  TWILIO_ENABLED : Bool
  twilio_client : Bool
  TWILIO_VOICE_ENABLED : Bool
  TWILIO_SMS_ENABLED : Bool
  TARGET_USERNAME : String
  WEBHOOK_SECRET : String
  NOTIFICATION_FOLLOWUP_MINUTES : Int

/-- `NotificationService._send_twilio_notification`: returns `False` when the
client is not initialized; otherwise attempts a voice call when
`TWILIO_VOICE_ENABLED` (success sets the returned flag) and, independently and
best-effort, an SMS when `TWILIO_SMS_ENABLED` — the SMS outcome never affects
the returned flag. `voiceOk` / `smsOk` are the external Twilio outcomes. -/
def send_twilio_notification (cfg : Config) (voiceOk smsOk : Bool) : Bool :=
  if !cfg.twilio_client then false
  else
    let success := cfg.TWILIO_VOICE_ENABLED && voiceOk
    let _smsAttempted := cfg.TWILIO_SMS_ENABLED && smsOk
    success

/-- What one call of `NotificationService.send_notification` did: the updated
store, the Bool the Python function returns, the id of the pending record it
created (if any), whether the Twilio backup path ran, and what that backup
reported. -/
structure DispatchResult where
  state : StoreState
  returned : Bool
  createdNid : Option String
  secondaryInvoked : Bool
  secondaryResult : Bool
deriving DecidableEq, Repr

/-- `NotificationService.send_notification(title, message, link, post_id)`.
`hasSM` is the truthiness of `self.state_manager`; `freshNid` the uuid the
store would generate; `ntfyOk` the outcome of the ntfy POST (the primary
channel, whose payload construction is network-only and does not touch the
store). Steps, as in the source: (1) if `state_manager and post_id`, create a
pending record (an exception propagates); (2) send ntfy; (3) if ntfy failed
and `TWILIO_ENABLED and twilio_client`, send the Twilio backup and, if a
pending record had been created, mark it acknowledged; (4) return the ntfy
success flag. `send_notification_after_create` is steps (2)-(4), applied to
the store and optional pending id left by step (1). -/
def send_notification_after_create (cfg : Config) (s1 : StoreState)
    (nidOpt : Option String) (ntfyOk voiceOk smsOk : Bool) : DispatchResult :=
  if !ntfyOk && cfg.TWILIO_ENABLED && cfg.twilio_client then
    { state :=
        match nidOpt with
        | some nid =>
          if falsy (some nid) then s1 else (mark_notification_acknowledged s1 nid).1
        | none => s1,
      returned := ntfyOk,
      createdNid := nidOpt,
      secondaryInvoked := true,
      secondaryResult := send_twilio_notification cfg voiceOk smsOk }
  else
    { state := s1, returned := ntfyOk, createdNid := nidOpt,
      secondaryInvoked := false, secondaryResult := false }

def send_notification (cfg : Config) (s : StoreState) (hasSM : Bool)
    (title message : String) (link : Option String) (post_id : Option String)
    (freshNid : String) (now : Int) (ntfyOk voiceOk smsOk : Bool) :
    Except DbError DispatchResult :=
  match post_id with
  | some pid =>
    if hasSM && !falsy (some pid) then
      match create_pending_notification s freshNid pid title message link now with
      | .error e => .error e
      | .ok (s1, nid) =>
        .ok (send_notification_after_create cfg s1 (some nid) ntfyOk voiceOk smsOk)
    else .ok (send_notification_after_create cfg s none ntfyOk voiceOk smsOk)
  | none => .ok (send_notification_after_create cfg s none ntfyOk voiceOk smsOk)

/-- The JSON body plus HTTP status an acknowledge-route handler returns
(webhook.py, `acknowledge`). -/
structure AckReply where
  success : Bool
  error : Option String
  status : Nat
deriving DecidableEq, Repr

/-- `401 with success false and error Unauthorized`. -/
def ackUnauthorized : AckReply := ⟨false, some "Unauthorized", 401⟩

/-- `400 with success false and error Missing notification ID`. -/
def ackBadRequest : AckReply := ⟨false, some "Missing notification ID", 400⟩

/-- `200 with success true`. -/
def ackSuccess : AckReply := ⟨true, none, 200⟩

/-- `404 with success false and error Notification not found`. -/
def ackNotFound : AckReply := ⟨false, some "Notification not found", 404⟩

/-- The acknowledge route of `WebhookServer` (webhook.py): read the `id` and
`secret` query parameters (absent parameter = `none`); reject 401 when the
secret is falsy or differs from `config.WEBHOOK_SECRET`; then reject 400 when
the id is falsy; otherwise call the store's acknowledge and answer 200 when it
returned True, 404 when False. Returns the store as left by the handler. -/
def webhook_acknowledge (cfg : Config) (s : StoreState)
    (idArg secretArg : Option String) : StoreState × AckReply :=
  if falsy secretArg || !(secretArg == some cfg.WEBHOOK_SECRET) then
    (s, ackUnauthorized)
  else if falsy idArg then
    (s, ackBadRequest)
  else
    match idArg with
    | none => (s, ackBadRequest)
    | some nid =>
      let res := mark_notification_acknowledged s nid
      if res.2 then (res.1, ackSuccess) else (res.1, ackNotFound)

/-- A submission as handed over by the event-source collaborator
(monitor.py reads `id`, `author.name` — with `author` possibly `None` —,
`subreddit.display_name`, `title`, `created_utc`, `permalink`). -/
structure Submission where
  id : String
  author : Option String
  subreddit : String
  title : String
  created_utc : Int
  permalink : String
deriving DecidableEq, Repr

/-- ASCII lowercase of one character, as Python's `str.lower()` acts on the
ASCII user names this system compares. -/
def lowerChar (c : Char) : Char :=
  if c.toNat ≥ 65 ∧ c.toNat ≤ 90 then Char.ofNat (c.toNat + 32) else c

/-- `str.lower()` of Python, on ASCII strings. -/
def lowerString (s : String) : String := ⟨s.data.map lowerChar⟩

/-- The target-author test of `check_for_new_posts`:
`submission.author and submission.author.name.lower() == TARGET_USERNAME.lower()`. -/
def isTargetAuthor (cfg : Config) (sub : Submission) : Bool :=
  match sub.author with
  | some a => lowerString a == lowerString cfg.TARGET_USERNAME
  | none => false

/-- External inputs of one poll cycle: per-post ntfy / Twilio outcomes, the
uuid generated for each created pending record, and the wall-clock instant. -/
structure MonitorEnv where
  ntfyOk : String → Bool
  voiceOk : String → Bool
  smsOk : String → Bool
  nidOf : String → String
  now : Int

/-- The candidate-event loop of `RedditMonitor.check_for_new_posts`, over the
flattened sequence of fetched submissions (the early `return` exits both
nested loops, so the nested iteration equals iteration over the
concatenation). Per matching unseen submission: build title/message/link,
`mark_post_seen`, then `send_notification` with the post id for tracking;
when the latter returns True the function returns at once, deferring every
remaining submission to a later cycle. A storage exception is caught by the
surrounding `try` and the cycle returns False. Result: final store, the ids
dispatched this cycle in order, and the Bool the Python function returns. -/
def process_submissions (cfg : Config) (env : MonitorEnv) :
    StoreState → List Submission → StoreState × List String × Bool
  | s, [] => (s, [], true)
  | s, sub :: rest =>
    if isTargetAuthor cfg sub then
      if is_post_seen s sub.id then
        process_submissions cfg env s rest
      else
        let author := sub.author.getD ""
        let title := "New Reddit Post by u/" ++ author
        let message := "Post in r/" ++ sub.subreddit ++ ": " ++ sub.title
        let link := "https://www.reddit.com" ++ sub.permalink
        match mark_post_seen s sub.id author sub.subreddit sub.title env.now with
        | .error _ => (s, [], false)
        | .ok s1 =>
          match send_notification cfg s1 true title message (some link) (some sub.id)
              (env.nidOf sub.id) env.now (env.ntfyOk sub.id) (env.voiceOk sub.id)
              (env.smsOk sub.id) with
          | .error _ => (s1, [sub.id], false)
          | .ok r =>
            if r.returned then (r.state, [sub.id], true)
            else
              let next := process_submissions cfg env r.state rest
              (next.1, sub.id :: next.2.1, next.2.2)
    else
      process_submissions cfg env s rest

/-- `RedditMonitor.check_for_new_posts` for one poll cycle. -/
def check_for_new_posts (cfg : Config) (env : MonitorEnv) (s : StoreState)
    (subs : List Submission) : StoreState × List String × Bool :=
  process_submissions cfg env s subs

/-- `mark_post_seen` including the statement-level failure mode: the method's
`except` block rolls back and re-raises, so an injected storage failure
surfaces to the caller. -/
def mark_post_seen_run (s : StoreState) (post_id username subreddit title : String)
    (now : Int) (storageFail : Bool) : Except DbError StoreState :=
  if storageFail then .error .storageError
  else mark_post_seen s post_id username subreddit title now

/-- `create_pending_notification` including the statement-level failure mode:
its `except` block rolls back and re-raises. -/
def create_pending_notification_run (s : StoreState) (nid post_id title message : String)
    (link : Option String) (now : Int) (storageFail : Bool) :
    Except DbError (StoreState × String) :=
  if storageFail then .error .storageError
  else create_pending_notification s nid post_id title message link now

/-- `mark_notification_acknowledged` including the statement-level failure
mode: its `except` block rolls back and `return False` — the exception is
swallowed and the caller receives an ordinary `False`. -/
def mark_notification_acknowledged_run (s : StoreState) (nid : String)
    (storageFail : Bool) : Except DbError (StoreState × Bool) :=
  if storageFail then .ok (s, false)
  else .ok (mark_notification_acknowledged s nid)

/-- `get_pending_notifications_needing_followup` including the statement-level
failure mode: its `except` block `return []` — the exception is swallowed and
the caller receives an ordinary empty list. -/
def get_pending_notifications_needing_followup_run (s : StoreState)
    (now minutes : Int) (storageFail : Bool) : Except DbError (List PendingView) :=
  if storageFail then .ok []
  else .ok (get_pending_notifications_needing_followup s now minutes)

/-- One wake of the followup loop body inside
`NotificationService.start_followup_thread` (`check_for_pending_notifications`):
query the overdue pendings once (a snapshot list), then for each one send the
Twilio followup and mark it acknowledged — the acknowledgment is issued without
looking at the send's outcome. Returns the post-scan store and, as a trace,
each escalated id paired with what its Twilio send reported. `voiceOk`/`smsOk`
give the external Twilio outcome per notification id. -/
def followup_scan (cfg : Config) (s : StoreState) (now : Int)
    (voiceOk smsOk : String → Bool) : StoreState × List (String × Bool) :=
  let pending := get_pending_notifications_needing_followup s now
    cfg.NOTIFICATION_FOLLOWUP_MINUTES
  (pending.foldl (fun st v => (mark_notification_acknowledged st v.notification_id).1) s,
   pending.map (fun v =>
     (v.notification_id, send_twilio_notification cfg (voiceOk v.notification_id)
       (smsOk v.notification_id))))

/-- The mutating Store operations. Every component writes to the database
exclusively through these three StateManager methods, so any future store
state is produced by a sequence of them. -/
inductive StoreOp where
  | markSeen (post_id username subreddit title : String) (now : Int)
  | createPending (nid post_id title message : String) (link : Option String) (now : Int)
  | ackNotif (nid : String)

/-- Effect of one Store operation on the database. A failing insert
(duplicate key) rolls back, leaving the state unchanged. -/
def applyOp (s : StoreState) : StoreOp → StoreState
  | .markSeen pid u sub t now =>
    match mark_post_seen s pid u sub t now with
    | .ok s1 => s1
    | .error _ => s
  | .createPending nid pid t m l now =>
    match create_pending_notification s nid pid t m l now with
    | .ok r => r.1
    | .error _ => s
  | .ackNotif nid => (mark_notification_acknowledged s nid).1

/-- `Reachable s t`: the database can evolve from `s` to `t` through some
sequence of Store operations issued by any combination of components. -/
inductive Reachable : StoreState → StoreState → Prop
  | refl (s : StoreState) : Reachable s s
  | step (s t : StoreState) (op : StoreOp) : Reachable s t → Reachable s (applyOp t op)

/-- Some row with this notification id exists. -/
def pendingHas (s : StoreState) (nid : String) : Prop :=
  ∃ p ∈ s.pending_notifications, p.notification_id = nid

/-- Every row with this notification id is acknowledged. -/
def ackedAll (s : StoreState) (nid : String) : Prop :=
  ∀ p ∈ s.pending_notifications, p.notification_id = nid → p.acknowledged = true

/-- The id exists and every row carrying it is acknowledged — the state from
which no further escalation for this id can ever be owed. -/
def ackSettled (s : StoreState) (nid : String) : Prop :=
  pendingHas s nid ∧ ackedAll s nid

theorem pendingHas_mark (s : StoreState) (nid nid2 : String) :
    pendingHas s nid → pendingHas (mark_notification_acknowledged s nid2).1 nid := by
  rintro ⟨p, hp, hid⟩
  refine ⟨if p.notification_id == nid2 then { p with acknowledged := true } else p,
    List.mem_map_of_mem _ hp, ?_⟩
  by_cases h : p.notification_id == nid2 <;> simpa [h] using hid

theorem ackedAll_mark_self (s : StoreState) (nid : String) :
    ackedAll (mark_notification_acknowledged s nid).1 nid := by
  intro q hq hid
  simp only [mark_notification_acknowledged, List.mem_map] at hq
  obtain ⟨p, hp, hpq⟩ := hq
  by_cases h : p.notification_id == nid
  · simp [h] at hpq
    simp [← hpq]
  · simp [h] at hpq
    subst hpq
    exact absurd (by exact_mod_cast hid) (by simpa using h)

theorem ackedAll_mark (s : StoreState) (nid nid2 : String) :
    ackedAll s nid → ackedAll (mark_notification_acknowledged s nid2).1 nid := by
  intro hall q hq hid
  simp only [mark_notification_acknowledged, List.mem_map] at hq
  obtain ⟨p, hp, hpq⟩ := hq
  by_cases h : p.notification_id == nid2
  · simp [h] at hpq
    simp [← hpq]
  · simp [h] at hpq
    subst hpq
    exact hall p hp hid

theorem ackSettled_mark_self (s : StoreState) (nid : String) :
    pendingHas s nid → ackSettled (mark_notification_acknowledged s nid).1 nid :=
  fun h => ⟨pendingHas_mark s nid nid h, ackedAll_mark_self s nid⟩

theorem ackSettled_mark (s : StoreState) (nid nid2 : String) :
    ackSettled s nid → ackSettled (mark_notification_acknowledged s nid2).1 nid :=
  fun h => ⟨pendingHas_mark s nid nid2 h.1, ackedAll_mark s nid nid2 h.2⟩

theorem ackSettled_of_pending_eq (s t : StoreState) (nid : String)
    (h : t.pending_notifications = s.pending_notifications) :
    ackSettled s nid → ackSettled t nid := by
  intro hs
  constructor
  · unfold pendingHas
    rw [h]
    exact hs.1
  · unfold ackedAll
    rw [h]
    exact hs.2

theorem ackSettled_applyOp (s : StoreState) (op : StoreOp) (nid : String) :
    ackSettled s nid → ackSettled (applyOp s op) nid := by
  intro h
  cases op with
  | markSeen pid u sub t now =>
    refine ackSettled_of_pending_eq s _ nid ?_ h
    simp only [applyOp, mark_post_seen]
    by_cases hc : (s.seen_posts.any fun e => e.post_id == pid) = true <;> simp [hc]
  | createPending nid2 pid t m l now =>
    by_cases hany : (s.pending_notifications.any fun p => p.notification_id == nid2) = true
    · have heq : applyOp s (StoreOp.createPending nid2 pid t m l now) = s := by
        simp [applyOp, create_pending_notification, hany]
      rw [heq]
      exact h
    · have happ : (applyOp s (StoreOp.createPending nid2 pid t m l now)).pending_notifications
          = s.pending_notifications ++ [⟨nid2, pid, t, m, l, now, false⟩] := by
        simp [applyOp, create_pending_notification, hany]
      have hany2 : s.pending_notifications.any (fun p => p.notification_id == nid2) = false := by
        simpa using hany
      have hne : nid2 ≠ nid := by
        intro heq
        subst heq
        obtain ⟨p, hp, hid⟩ := h.1
        have := List.any_eq_false.mp hany2 p hp
        exact this (by simpa using hid)
      constructor
      · obtain ⟨p, hp, hid⟩ := h.1
        refine ⟨p, ?_, hid⟩
        rw [happ]
        exact List.mem_append_left _ hp
      · intro q hq hid
        rw [happ] at hq
        rcases List.mem_append.mp hq with hq | hq
        · exact h.2 q hq hid
        · simp only [List.mem_singleton] at hq
          subst hq
          simp only at hid
          exact absurd hid hne
  | ackNotif nid2 => exact ackSettled_mark s nid nid2 h

theorem ackSettled_reachable (s t : StoreState) (nid : String) :
    ackSettled s nid → Reachable s t → ackSettled t nid := by
  intro h hr
  induction hr with
  | refl => exact h
  | step t2 op hr2 ih => exact ackSettled_applyOp t2 op nid ih

theorem ackedAll_not_overdue (s : StoreState) (nid : String) (now minutes : Int) :
    ackedAll s nid →
    nid ∉ (get_pending_notifications_needing_followup s now minutes).map
      PendingView.notification_id := by
  intro hall hmem
  simp only [get_pending_notifications_needing_followup, List.map_map,
    List.mem_map, List.mem_filter, Function.comp] at hmem
  obtain ⟨p, ⟨hp, hcond⟩, hid⟩ := hmem
  have hack : p.acknowledged = true := hall p hp hid
  simp [PendingNotification.view, hack] at hcond

theorem followup_scan_ids (cfg : Config) (s : StoreState) (now : Int)
    (voiceOk smsOk : String → Bool) :
    (followup_scan cfg s now voiceOk smsOk).2.map Prod.fst
      = (get_pending_notifications_needing_followup s now
          cfg.NOTIFICATION_FOLLOWUP_MINUTES).map PendingView.notification_id := by
  simp [followup_scan, List.map_map, Function.comp]

theorem ackedAll_not_escalated (cfg : Config) (s : StoreState) (nid : String)
    (now : Int) (voiceOk smsOk : String → Bool) :
    ackedAll s nid →
    nid ∉ (followup_scan cfg s now voiceOk smsOk).2.map Prod.fst := by
  intro hall
  rw [followup_scan_ids]
  exact ackedAll_not_overdue s nid now cfg.NOTIFICATION_FOLLOWUP_MINUTES hall

theorem mark_returns_true_iff (s : StoreState) (nid : String) :
    (mark_notification_acknowledged s nid).2 = true ↔
      0 < s.pending_notifications.countP (fun p => p.notification_id == nid) := by
  simp [mark_notification_acknowledged]

theorem mark_countP (s : StoreState) (nid nid2 : String) :
    ((mark_notification_acknowledged s nid).1.pending_notifications.countP
        (fun p => p.notification_id == nid2))
      = s.pending_notifications.countP (fun p => p.notification_id == nid2) := by
  unfold mark_notification_acknowledged
  rw [List.countP_map]
  congr 1
  funext p
  by_cases h : p.notification_id == nid <;> simp [Function.comp, h]

theorem mark_mark_state (s : StoreState) (nid : String) :
    (mark_notification_acknowledged (mark_notification_acknowledged s nid).1 nid).1
      = (mark_notification_acknowledged s nid).1 := by
  unfold mark_notification_acknowledged
  simp only [List.map_map]
  congr 1
  congr 1
  funext p
  by_cases h : p.notification_id == nid <;> simp [Function.comp, h]

theorem send_after_create_returned (cfg : Config) (s1 : StoreState)
    (nidOpt : Option String) (ntfyOk voiceOk smsOk : Bool) :
    (send_notification_after_create cfg s1 nidOpt ntfyOk voiceOk smsOk).returned
      = ntfyOk := by
  unfold send_notification_after_create
  split <;> rfl

theorem foldAck_preserve (l : List PendingView) : ∀ (s : StoreState) (nid : String),
    ackSettled s nid →
    ackSettled (l.foldl
      (fun st v => (mark_notification_acknowledged st v.notification_id).1) s) nid := by
  induction l with
  | nil => intro s nid h; exact h
  | cons v l ih =>
    intro s nid h
    exact ih _ nid (ackSettled_mark s nid v.notification_id h)

theorem foldAck_mem (l : List PendingView) : ∀ (s : StoreState) (nid : String),
    nid ∈ l.map PendingView.notification_id → pendingHas s nid →
    ackSettled (l.foldl
      (fun st v => (mark_notification_acknowledged st v.notification_id).1) s) nid := by
  induction l with
  | nil => intro s nid hmem _; simp at hmem
  | cons v l ih =>
    intro s nid hmem hhas
    simp only [List.map_cons, List.mem_cons] at hmem
    rcases hmem with hmem | hmem
    · subst hmem
      exact foldAck_preserve l _ _ (ackSettled_mark_self s _ hhas)
    · exact ih _ nid hmem (pendingHas_mark s nid v.notification_id hhas)

theorem overdue_mem_pendingHas (s : StoreState) (now minutes : Int) (nid : String)
    (h : nid ∈ (get_pending_notifications_needing_followup s now minutes).map
      PendingView.notification_id) :
    pendingHas s nid := by
  simp only [get_pending_notifications_needing_followup, List.map_map, List.mem_map,
    Function.comp, List.mem_filter] at h
  obtain ⟨p, ⟨hp, -⟩, hid⟩ := h
  exact ⟨p, hp, by simpa [PendingNotification.view] using hid⟩

/-- Store contents after `create_pending` of a single record; used for C1. -/
def C1_store : StoreState := ⟨[], [⟨"n1", "p1", "t", "m", none, 0, false⟩]⟩

/-- **C1, counterexample.** The claim says a second `acknowledge` with the id
returned by `create_pending` returns false. On the code it returns true: the
UPDATE in `mark_notification_acknowledged` has no `acknowledged = 0` guard, so
the re-acknowledge matches the (already acknowledged) row again and
`cursor.rowcount` is 1. Concrete run: create one pending record on an empty
database, acknowledge it twice. -/
theorem C1_counterexample :
    create_pending_notification StoreState.empty "n1" "p1" "t" "m" none 0
        = .ok (C1_store, "n1")
    ∧ (mark_notification_acknowledged C1_store "n1").2 = true
    ∧ (mark_notification_acknowledged
        (mark_notification_acknowledged C1_store "n1").1 "n1").2 ≠ false := by
  refine ⟨rfl, rfl, ?_⟩
  decide

/-- **C1, amended.** For every pending notification created by
`create_pending`, the first `acknowledge` with the returned id returns true,
and every subsequent `acknowledge` with that same id also returns true (the
UPDATE matches the row again); re-acknowledging never errors and leaves the
stored rows exactly as the first acknowledge left them. Only a nonexistent id
yields false. -/
theorem C1_acknowledge_amended (s s1 : StoreState) (nid pid title message : String)
    (link : Option String) (now : Int)
    (h : create_pending_notification s nid pid title message link now = .ok (s1, nid)) :
    (mark_notification_acknowledged s1 nid).2 = true
    ∧ (mark_notification_acknowledged (mark_notification_acknowledged s1 nid).1 nid).2 = true
    ∧ (mark_notification_acknowledged (mark_notification_acknowledged s1 nid).1 nid).1
        = (mark_notification_acknowledged s1 nid).1 := by
  unfold create_pending_notification at h
  by_cases hany : (s.pending_notifications.any fun p => p.notification_id == nid) = true
  · rw [if_pos hany] at h
    simp at h
  · rw [if_neg hany] at h
    simp only [Except.ok.injEq, Prod.mk.injEq, and_true] at h
    subst h
    refine ⟨?_, ?_, mark_mark_state _ nid⟩
    · rw [mark_returns_true_iff]
      rw [List.countP_append]
      have h1 : List.countP (fun p => p.notification_id == nid)
          ([⟨nid, pid, title, message, link, now, false⟩] : List PendingNotification)
          = 1 := by simp
      omega
    · rw [mark_returns_true_iff, mark_countP]
      rw [List.countP_append]
      have h1 : List.countP (fun p => p.notification_id == nid)
          ([⟨nid, pid, title, message, link, now, false⟩] : List PendingNotification)
          = 1 := by simp
      omega

/-- Witness for C1: the amended statement instantiated on an empty database. -/
theorem C1_witness :
    (mark_notification_acknowledged C1_store "n1").2 = true
    ∧ (mark_notification_acknowledged
        (mark_notification_acknowledged C1_store "n1").1 "n1").2 = true :=
  ⟨(C1_acknowledge_amended StoreState.empty C1_store "n1" "p1" "t" "m" none 0 rfl).1,
   (C1_acknowledge_amended StoreState.empty C1_store "n1" "p1" "t" "m" none 0 rfl).2.1⟩

/-- Config with Twilio enabled, an initialized client and voice enabled;
used for C2. -/
def C2_cfg : Config := ⟨true, true, true, false, "alice", "sec", 3⟩

/-- Store contents after the C2 dispatch: the pending record was created and
then marked acknowledged by the fallback path. -/
def C2_store : StoreState := ⟨[], [⟨"n1", "p1", "t", "m", none, 0, true⟩]⟩

/-- **C2, counterexample.** The claim says that when the primary channel fails
and the configured secondary channel succeeds, `dispatch` returns a fallback
(non-failed) outcome. On the code, `send_notification` returns only the
primary (ntfy) success flag: at this concrete input the Twilio backup is
invoked and succeeds, yet the returned outcome is the failure value. -/
theorem C2_counterexample :
    (send_notification C2_cfg StoreState.empty true "t" "m" none (some "p1")
        "n1" 0 false true true).map DispatchResult.returned ≠ Except.ok true
    ∧ send_notification C2_cfg StoreState.empty true "t" "m" none (some "p1")
        "n1" 0 false true true
      = .ok ⟨C2_store, false, some "n1", true, true⟩ := by
  constructor
  · intro hcontra
    rw [show send_notification C2_cfg StoreState.empty true "t" "m" none (some "p1")
        "n1" 0 false true true
      = Except.ok (⟨C2_store, false, some "n1", true, true⟩ : DispatchResult) from rfl] at hcontra
    simp [Except.map] at hcontra
  · rfl

/-- **C2, amended.** Whatever the channels do, `send_notification` returns
exactly the primary (ntfy) channel's success flag: a failed outcome is
returned whenever the primary fails, even when the secondary fallback
succeeded, and a success outcome means the primary succeeded. -/
theorem C2_dispatch_returns_primary (cfg : Config) (s : StoreState) (hasSM : Bool)
    (title message : String) (link : Option String) (post_id : Option String)
    (freshNid : String) (now : Int) (ntfyOk voiceOk smsOk : Bool) (r : DispatchResult)
    (h : send_notification cfg s hasSM title message link post_id freshNid now
        ntfyOk voiceOk smsOk = .ok r) :
    r.returned = ntfyOk := by
  cases post_id with
  | none =>
    simp only [send_notification, Except.ok.injEq] at h
    subst h
    exact send_after_create_returned cfg s none ntfyOk voiceOk smsOk
  | some pid =>
    simp only [send_notification] at h
    by_cases hc : (hasSM && !falsy (some pid)) = true
    · rw [if_pos hc] at h
      cases hcr : create_pending_notification s freshNid pid title message link now with
      | error e =>
        rw [hcr] at h
        simp at h
      | ok pr =>
        obtain ⟨s1, nid2⟩ := pr
        rw [hcr] at h
        simp only [Except.ok.injEq] at h
        subst h
        exact send_after_create_returned cfg s1 (some nid2) ntfyOk voiceOk smsOk
    · rw [if_neg hc] at h
      simp only [Except.ok.injEq] at h
      subst h
      exact send_after_create_returned cfg s none ntfyOk voiceOk smsOk

/-- Witness for C2: the amended statement at the counterexample's input. -/
theorem C2_witness :
    (DispatchResult.mk C2_store false (some "n1") true true).returned = false :=
  C2_dispatch_returns_primary C2_cfg StoreState.empty true "t" "m" none (some "p1")
    "n1" 0 false true true ⟨C2_store, false, some "n1", true, true⟩ rfl

/-- **C6.** `record_seen` (`mark_post_seen`) called twice with the same
`event_id` succeeds the first time and fails the second time with a
duplicate-key error; the seen-events table then holds exactly one row for
that id, namely the row the first call inserted, and the failing second call
leaves the table as the first call left it (the INSERT is rolled back and the
error re-raised). -/
theorem C6_record_seen_duplicate (s : StoreState) (pid u1 sub1 t1 u2 sub2 t2 : String)
    (n1 n2 : Int) (h : is_post_seen s pid = false) :
    ∃ s1, mark_post_seen s pid u1 sub1 t1 n1 = .ok s1
      ∧ mark_post_seen s1 pid u2 sub2 t2 n2 = .error .duplicateKey
      ∧ s1.seen_posts.countP (fun e => e.post_id == pid) = 1
      ∧ s1.seen_posts = s.seen_posts ++ [⟨pid, u1, sub1, t1, n1⟩] := by
  have hany : (s.seen_posts.any fun e => e.post_id == pid) = false := h
  refine ⟨{ s with seen_posts := s.seen_posts ++ [⟨pid, u1, sub1, t1, n1⟩] },
    ?_, ?_, ?_, rfl⟩
  · simp [mark_post_seen, hany]
  · simp [mark_post_seen, List.any_append]
  · rw [List.countP_append]
    have h0 : s.seen_posts.countP (fun e => e.post_id == pid) = 0 :=
      List.countP_eq_zero.mpr (fun a ha => List.any_eq_false.mp hany a ha)
    simp [h0]

/-- **C4.** When `send_notification` created a pending record and the primary
(ntfy) send fails while Twilio is enabled with an initialized client, the
secondary channel is invoked and the pending record is marked acknowledged
before the call returns; every row carrying that id is then acknowledged in
the returned store and stays acknowledged in every store reachable through
further Store operations, so no later Escalation Monitor scan ever lists or
escalates that id. -/
theorem C4_fallback_acknowledges_pending (cfg cfg2 : Config) (s : StoreState)
    (title message : String) (link : Option String) (pid freshNid : String)
    (now : Int) (voiceOk smsOk : Bool)
    (hfresh : (s.pending_notifications.any fun p => p.notification_id == freshNid) = false)
    (hnid : freshNid.isEmpty = false)
    (hpid : pid.isEmpty = false)
    (hTw : cfg.TWILIO_ENABLED = true) (hCl : cfg.twilio_client = true) :
    ∃ r : DispatchResult,
      send_notification cfg s true title message link (some pid) freshNid now
          false voiceOk smsOk = .ok r
      ∧ r.createdNid = some freshNid
      ∧ r.secondaryInvoked = true
      ∧ ackSettled r.state freshNid
      ∧ ∀ t, Reachable r.state t → ∀ (now2 : Int) (v2 s2 : String → Bool),
          freshNid ∉ (followup_scan cfg2 t now2 v2 s2).2.map Prod.fst := by
  set s1 : StoreState := { s with pending_notifications := s.pending_notifications
      ++ [⟨freshNid, pid, title, message, link, now, false⟩] } with hs1
  have hsend : send_notification cfg s true title message link (some pid) freshNid now
      false voiceOk smsOk
      = .ok (send_notification_after_create cfg s1 (some freshNid) false voiceOk smsOk) := by
    simp [send_notification, falsy, hpid, create_pending_notification, hfresh, hs1]
  have hafter : send_notification_after_create cfg s1 (some freshNid) false voiceOk smsOk
      = { state := (mark_notification_acknowledged s1 freshNid).1, returned := false,
          createdNid := some freshNid, secondaryInvoked := true,
          secondaryResult := send_twilio_notification cfg voiceOk smsOk } := by
    simp [send_notification_after_create, hTw, hCl, falsy, hnid]
  have hhas : pendingHas s1 freshNid :=
    ⟨⟨freshNid, pid, title, message, link, now, false⟩, by simp [hs1], rfl⟩
  have hsettle : ackSettled (mark_notification_acknowledged s1 freshNid).1 freshNid :=
    ackSettled_mark_self s1 freshNid hhas
  refine ⟨{ state := (mark_notification_acknowledged s1 freshNid).1, returned := false,
            createdNid := some freshNid, secondaryInvoked := true,
            secondaryResult := send_twilio_notification cfg voiceOk smsOk },
    ?_, rfl, rfl, hsettle, ?_⟩
  · rw [hsend, hafter]
  · intro t hr now2 v2 s2fn
    exact ackedAll_not_escalated cfg2 t freshNid now2 v2 s2fn
      (ackSettled_reachable _ t freshNid hsettle hr).2

/-- Config with Twilio enabled, an initialized client and voice enabled;
used for the C4 witness. -/
def C4_cfg : Config := ⟨true, true, true, false, "alice", "sec", 3⟩

/-- Witness for C4: the fallback-acknowledges scenario on an empty database. -/
theorem C4_witness :
    ∃ r : DispatchResult,
      send_notification C4_cfg StoreState.empty true "t" "m" none (some "p1")
          "n1" 0 false true true = .ok r
      ∧ r.createdNid = some "n1"
      ∧ r.secondaryInvoked = true
      ∧ ackSettled r.state "n1" := by
  obtain ⟨r, h1, h2, h3, h4, h5⟩ :=
    C4_fallback_acknowledges_pending C4_cfg C4_cfg StoreState.empty "t" "m" none
      "p1" "n1" 0 true true (by decide) (by decide) (by decide) rfl rfl
  exact ⟨r, h1, h2, h3, h4⟩

/-- **C5.** On an Escalation Monitor scan, the escalated ids are exactly the
overdue pending ids; the store the scan leaves behind does not depend on
whether the escalation sends succeeded or failed (the acknowledge is issued
regardless); every escalated id is acknowledged in the post-scan store; and in
every store reachable from there by further Store operations, no later scan —
under any configuration, clock or channel outcome — lists that id again:
escalation is exactly-once per record. -/
theorem C5_escalate_once (cfg cfg2 : Config) (s : StoreState) (now : Int)
    (voiceOk smsOk voiceOk2 smsOk2 : String → Bool) (nid : String)
    (hmem : nid ∈ (followup_scan cfg s now voiceOk smsOk).2.map Prod.fst) :
    (followup_scan cfg s now voiceOk smsOk).2.map Prod.fst
        = (get_pending_notifications_needing_followup s now
            cfg.NOTIFICATION_FOLLOWUP_MINUTES).map PendingView.notification_id
      ∧ (followup_scan cfg s now voiceOk smsOk).1
          = (followup_scan cfg s now voiceOk2 smsOk2).1
      ∧ ackSettled (followup_scan cfg s now voiceOk smsOk).1 nid
      ∧ ∀ t, Reachable (followup_scan cfg s now voiceOk smsOk).1 t →
          ∀ (now2 : Int) (v2 s2 : String → Bool),
            nid ∉ (followup_scan cfg2 t now2 v2 s2).2.map Prod.fst := by
  have hids := followup_scan_ids cfg s now voiceOk smsOk
  have hmem2 : nid ∈ (get_pending_notifications_needing_followup s now
      cfg.NOTIFICATION_FOLLOWUP_MINUTES).map PendingView.notification_id := hids ▸ hmem
  have hhas : pendingHas s nid :=
    overdue_mem_pendingHas s now cfg.NOTIFICATION_FOLLOWUP_MINUTES nid hmem2
  have hsettle : ackSettled (followup_scan cfg s now voiceOk smsOk).1 nid :=
    foldAck_mem (get_pending_notifications_needing_followup s now
      cfg.NOTIFICATION_FOLLOWUP_MINUTES) s nid hmem2 hhas
  refine ⟨hids, rfl, hsettle, ?_⟩
  intro t hr now2 v2 s2fn
  exact ackedAll_not_escalated cfg2 t nid now2 v2 s2fn
    (ackSettled_reachable _ t nid hsettle hr).2

/-- Config and store for the C5 witness: one unacknowledged record created at
time 0, scanned at time 10 with a 3-minute deadline, escalation send failing. -/
def C5_cfg : Config := ⟨true, true, true, false, "alice", "sec", 3⟩

/-- Store for the C5 witness. -/
def C5_store : StoreState := ⟨[], [⟨"n1", "p1", "t", "m", none, 0, false⟩]⟩

/-- Witness for C5: the overdue record is escalated (send failing) and the
post-scan store has it acknowledged. -/
theorem C5_witness :
    "n1" ∈ (followup_scan C5_cfg C5_store 10 (fun _ => false) (fun _ => false)).2.map Prod.fst
    ∧ ackSettled (followup_scan C5_cfg C5_store 10 (fun _ => false) (fun _ => false)).1 "n1" := by
  have h : "n1" ∈ (followup_scan C5_cfg C5_store 10
      (fun _ => false) (fun _ => false)).2.map Prod.fst := by decide
  exact ⟨h, (C5_escalate_once C5_cfg C5_cfg C5_store 10 (fun _ => false) (fun _ => false)
    (fun _ => false) (fun _ => false) "n1" h).2.2.1⟩

/-- **C7.** The acknowledge route: a falsy or mismatching secret yields
Unauthorized (401) and leaves the store untouched; with the correct secret, a
falsy notification id yields BadRequest (400); otherwise the Store's
acknowledge runs and the response is Success (200) when it reported a changed
row and NotFound (404) when it reported none. -/
theorem C7_webhook_acknowledge_cases (cfg : Config) (s : StoreState)
    (idArg secretArg : Option String) :
    ((falsy secretArg = true ∨ secretArg ≠ some cfg.WEBHOOK_SECRET) →
        webhook_acknowledge cfg s idArg secretArg = (s, ackUnauthorized))
    ∧ (falsy secretArg = false → secretArg = some cfg.WEBHOOK_SECRET →
        (falsy idArg = true →
          webhook_acknowledge cfg s idArg secretArg = (s, ackBadRequest))
        ∧ ∀ nid, idArg = some nid → nid.isEmpty = false →
            webhook_acknowledge cfg s idArg secretArg
              = ((mark_notification_acknowledged s nid).1,
                 if (mark_notification_acknowledged s nid).2 then ackSuccess
                 else ackNotFound)) := by
  constructor
  · intro hcase
    have hcond : (falsy secretArg || !(secretArg == some cfg.WEBHOOK_SECRET)) = true := by
      rcases hcase with hcase | hcase
      · simp [hcase]
      · simp [hcase]
    simp [webhook_acknowledge, hcond]
  · intro hfal hsec
    have hcond : (falsy secretArg || !(secretArg == some cfg.WEBHOOK_SECRET)) = false := by
      rw [hfal]
      simp [hsec]
    constructor
    · intro hid
      simp [webhook_acknowledge, hcond, hid]
    · intro nid hid hne
      subst hid
      have hfid : falsy (some nid) = false := by simp [falsy, hne]
      by_cases hres : (mark_notification_acknowledged s nid).2 = true
      · simp [webhook_acknowledge, hcond, hfid, hres]
      · simp [webhook_acknowledge, hcond, hfid, hres]

/-- Config used by the C7 witness (shared secret is the string sec). -/
def C7_cfg : Config := ⟨true, true, true, false, "alice", "sec", 3⟩

/-- Store used by the C7 witness: one unacknowledged pending record. -/
def C7_store : StoreState := ⟨[], [⟨"n1", "p1", "t", "m", none, 0, false⟩]⟩

/-- Witness for C7: wrong secret, missing id, and successful acknowledge. -/
theorem C7_witness :
    webhook_acknowledge C7_cfg C7_store (some "n1") (some "bad")
        = (C7_store, ackUnauthorized)
    ∧ webhook_acknowledge C7_cfg C7_store none (some "sec") = (C7_store, ackBadRequest)
    ∧ webhook_acknowledge C7_cfg C7_store (some "n1") (some "sec")
        = ((mark_notification_acknowledged C7_store "n1").1,
           if (mark_notification_acknowledged C7_store "n1").2 then ackSuccess
           else ackNotFound) := by
  refine ⟨?_, ?_, ?_⟩
  · exact (C7_webhook_acknowledge_cases C7_cfg C7_store (some "n1") (some "bad")).1
      (Or.inr (by decide))
  · exact ((C7_webhook_acknowledge_cases C7_cfg C7_store none (some "sec")).2
      (by decide) rfl).1 rfl
  · exact ((C7_webhook_acknowledge_cases C7_cfg C7_store (some "n1") (some "sec")).2
      (by decide) rfl).2 "n1" rfl (by decide)

/-- **C10.** The secret is validated before the id: a request with an absent
or wrong secret is answered 401 Unauthorized even when the notification id is
also absent — never 400 — and the store is left unchanged. -/
theorem C10_secret_checked_before_id (cfg : Config) (s : StoreState)
    (secretArg : Option String)
    (h : falsy secretArg = true ∨ secretArg ≠ some cfg.WEBHOOK_SECRET) :
    (webhook_acknowledge cfg s none secretArg).2 = ackUnauthorized
    ∧ (webhook_acknowledge cfg s none secretArg).2.status = 401
    ∧ (webhook_acknowledge cfg s none secretArg).2.status ≠ 400
    ∧ (webhook_acknowledge cfg s none secretArg).1 = s := by
  have hcond : (falsy secretArg || !(secretArg == some cfg.WEBHOOK_SECRET)) = true := by
    rcases h with h | h
    · simp [h]
    · simp [h]
  have heq : webhook_acknowledge cfg s none secretArg = (s, ackUnauthorized) := by
    simp [webhook_acknowledge, hcond]
  rw [heq]
  refine ⟨rfl, rfl, ?_, rfl⟩
  intro hcontra
  simp [ackUnauthorized] at hcontra

/-- Config used by the C10 witness. -/
def C10_cfg : Config := ⟨true, true, true, false, "alice", "sec", 3⟩

/-- Witness for C10: secret and id both absent yields 401, not 400. -/
theorem C10_witness :
    (webhook_acknowledge C10_cfg StoreState.empty none none).2.status = 401
    ∧ (webhook_acknowledge C10_cfg StoreState.empty none none).2.status ≠ 400 :=
  ⟨(C10_secret_checked_before_id C10_cfg StoreState.empty none (Or.inl rfl)).2.1,
   (C10_secret_checked_before_id C10_cfg StoreState.empty none (Or.inl rfl)).2.2.1⟩

/-- **C8.** `list_overdue_pending(minutes)` returns exactly the views of the
pending records with `acknowledged = false` and `created_at < now - minutes`:
membership in the result is equivalent to arising from such a record. -/
theorem C8_list_overdue_characterization (s : StoreState) (now minutes : Int)
    (v : PendingView) :
    v ∈ get_pending_notifications_needing_followup s now minutes
      ↔ ∃ p ∈ s.pending_notifications,
          p.acknowledged = false ∧ p.created_at < now - minutes
            ∧ v = PendingNotification.view p := by
  simp only [get_pending_notifications_needing_followup, List.mem_map, List.mem_filter,
    Bool.and_eq_true, beq_iff_eq, decide_eq_true_eq]
  constructor
  · rintro ⟨p, ⟨hp, hack, hlt⟩, hv⟩
    exact ⟨p, hp, hack, hlt, hv.symm⟩
  · rintro ⟨p, hp, hack, hlt, hv⟩
    exact ⟨p, ⟨hp, hack, hlt⟩, hv.symm⟩

/-- **C9, counterexample.** The claim says `acknowledge` and
`list_overdue_pending` surface storage failures to the caller as errors. In
the code both swallow the exception: under an injected storage failure
`mark_notification_acknowledged` returns the ordinary value False (after
rollback) and `get_pending_notifications_needing_followup` returns the
ordinary empty list — neither call propagates an error. -/
theorem C9_counterexample :
    mark_notification_acknowledged_run StoreState.empty "n1" true
        = .ok (StoreState.empty, false)
    ∧ get_pending_notifications_needing_followup_run StoreState.empty 10 3 true
        = .ok [] :=
  ⟨rfl, rfl⟩

/-- **C9, amended.** `record_seen` and `create_pending` re-raise storage
failures to the caller, but `acknowledge` swallows them and returns false
with the store unchanged, and `list_overdue_pending` swallows them and
returns the empty sequence. -/
theorem C9_error_surfacing_amended (s : StoreState)
    (pid u sub t nid pid2 title msg nid2 : String) (link : Option String)
    (now minutes : Int) :
    mark_post_seen_run s pid u sub t now true = .error .storageError
    ∧ create_pending_notification_run s nid pid2 title msg link now true
        = .error .storageError
    ∧ mark_notification_acknowledged_run s nid2 true = .ok (s, false)
    ∧ get_pending_notifications_needing_followup_run s now minutes true = .ok [] :=
  ⟨rfl, rfl, rfl, rfl⟩

/-- Config for the C3 run: target author alice. -/
def C3_cfg : Config := ⟨true, true, true, false, "alice", "sec", 3⟩

/-- Environment for the C3 run: the primary channel succeeds for every post. -/
def C3_env : MonitorEnv :=
  ⟨fun _ => true, fun _ => true, fun _ => true, fun pid => "nid-" ++ pid, 100⟩

/-- First candidate submission of the C3 cycle. -/
def C3_sub1 : Submission := ⟨"p1", some "Alice", "sub", "t1", 50, "/r/sub/p1"⟩

/-- Second candidate submission of the C3 cycle. -/
def C3_sub2 : Submission := ⟨"p2", some "alice", "sub", "t2", 60, "/r/sub/p2"⟩

/-- **C3, code bug.** The claim (and the spec) say processing continues to the
next candidate event in the same cycle on any dispatch outcome. The code
instead returns from `check_for_new_posts` as soon as one notification is
sent successfully: with two fresh candidate posts by the target author and a
succeeding primary channel, only the first is dispatched and the second is
not even recorded as seen in that cycle — it is deferred whole to a later
cycle. -/
theorem C3_early_return_on_success :
    (check_for_new_posts C3_cfg C3_env StoreState.empty [C3_sub1, C3_sub2]).2.1 = ["p1"]
    ∧ is_post_seen
        (check_for_new_posts C3_cfg C3_env StoreState.empty [C3_sub1, C3_sub2]).1 "p2"
      = false
    ∧ (check_for_new_posts C3_cfg C3_env StoreState.empty [C3_sub1, C3_sub2]).2.2
      = true := by
  refine ⟨?_, ?_, ?_⟩ <;> decide

/-- Witness for C6: the duplicate-insert scenario run on an empty database. -/
theorem C6_witness :
    is_post_seen StoreState.empty "p1" = false
    ∧ ∃ s1, mark_post_seen StoreState.empty "p1" "u" "sub" "t" 0 = .ok s1
      ∧ mark_post_seen s1 "p1" "u2" "sub2" "t2" 1 = .error .duplicateKey
      ∧ s1.seen_posts.countP (fun e => e.post_id == "p1") = 1
      ∧ s1.seen_posts = StoreState.empty.seen_posts ++ [⟨"p1", "u", "sub", "t", 0⟩] :=
  ⟨rfl, C6_record_seen_duplicate StoreState.empty "p1" "u" "sub" "t" "u2" "sub2" "t2" 0 1 rfl⟩
